import Mathlib

set_option maxRecDepth 4000

/-!
Verification development for the Codefusion backend (FastAPI + SQLAlchemy).
The Python sources are embedded shallowly: pure logic becomes Lean functions,
repository/domain methods become explicit state-passing functions returning
`Except PyError`, where an `error` value models a raised exception (and hence a
rolled-back transaction).  Machine details that the claims do not touch
(timestamps, connection handling, exact HTTP bodies) are simplified and noted
at each definition.
-/

/-- JSON values, modelling the Python objects produced by `json.loads`
(restricted to the fragment exercised here: integers instead of arbitrary
numerics, no float literals). -/
inductive Json where
  | null
  | bool (b : Bool)
  | num (n : Int)
  | str (s : String)
  | arr (elems : List Json)
  | obj (fields : List (String × Json))

/-- Whitespace skipping for the JSON grammar (space, tab, newline, carriage
return), as accepted by Python `json.loads`. -/
def skipWs : List Char → List Char
  | [] => []
  | c :: cs => if c = ' ' ∨ c = '\t' ∨ c = '\n' ∨ c = '\r' then skipWs cs else c :: cs

/-- JSON string escape characters (the single-character escapes; `\u` escapes
are not modelled, none of the analysed strings use them). -/
def escChar (e : Char) : Option Char :=
  if e = '"' ∨ e = '\\' ∨ e = '/' then some e
  else if e = 'n' then some '\n'
  else if e = 't' then some '\t'
  else if e = 'r' then some '\r'
  else if e = 'b' then some (Char.ofNat 8)
  else if e = 'f' then some (Char.ofNat 12)
  else none

/-- Parse the body of a JSON string literal (the opening quote has already been
consumed); returns the string and the remaining input. -/
def parseStrAux : List Char → List Char → Option (String × List Char)
  | _acc, [] => none
  | acc, c :: cs =>
    if c = '"' then some (String.mk acc.reverse, cs)
    else if c = '\\' then
      match cs with
      | [] => none
      | e :: cs2 =>
        match escChar e with
        | some ec => parseStrAux (ec :: acc) cs2
        | none => none
    else parseStrAux (c :: acc) cs

/-- Parse a non-empty digit run as a natural number. -/
def parseNat (cs : List Char) : Option (Nat × List Char) :=
  let ds := cs.takeWhile Char.isDigit
  if ds.isEmpty then none
  else some (ds.foldl (fun a c => a * 10 + (c.toNat - 48)) 0, cs.drop ds.length)

mutual

/-- Recursive-descent parser for one JSON value, fuelled to guarantee
termination; `Json.loads` supplies ample fuel. -/
def parseVal : Nat → List Char → Option (Json × List Char)
  | 0, _ => none
  | fuel+1, cs =>
    match skipWs cs with
    | 'n' :: 'u' :: 'l' :: 'l' :: rest => some (.null, rest)
    | 't' :: 'r' :: 'u' :: 'e' :: rest => some (.bool true, rest)
    | 'f' :: 'a' :: 'l' :: 's' :: 'e' :: rest => some (.bool false, rest)
    | '"' :: rest => (parseStrAux [] rest).map (fun p => (.str p.1, p.2))
    | '-' :: rest => (parseNat rest).map (fun p => (.num (-(p.1 : Int)), p.2))
    | '[' :: rest =>
      match skipWs rest with
      | ']' :: r2 => some (.arr [], r2)
      | _ => (parseElems fuel rest []).map (fun p => (.arr p.1, p.2))
    | '{' :: rest =>
      match skipWs rest with
      | '}' :: r2 => some (.obj [], r2)
      | _ => (parseFields fuel rest []).map (fun p => (.obj p.1, p.2))
    | c :: rest =>
      if c.isDigit then (parseNat (c :: rest)).map (fun p => (.num (p.1 : Int), p.2))
      else none
    | [] => none

/-- Parse the comma-separated elements of a JSON array (after the opening
bracket), accumulating in reverse. -/
def parseElems : Nat → List Char → List Json → Option (List Json × List Char)
  | 0, _, _ => none
  | fuel+1, cs, acc =>
    match parseVal fuel cs with
    | none => none
    | some (j, rest) =>
      match skipWs rest with
      | ',' :: r2 => parseElems fuel r2 (j :: acc)
      | ']' :: r2 => some ((j :: acc).reverse, r2)
      | _ => none

/-- Parse the `"key": value` members of a JSON object (after the opening
brace), accumulating in reverse. -/
def parseFields : Nat → List Char → List (String × Json) →
    Option (List (String × Json) × List Char)
  | 0, _, _ => none
  | fuel+1, cs, acc =>
    match skipWs cs with
    | '"' :: rest =>
      match parseStrAux [] rest with
      | none => none
      | some (key, r1) =>
        match skipWs r1 with
        | ':' :: r2 =>
          match parseVal fuel r2 with
          | none => none
          | some (v, r3) =>
            match skipWs r3 with
            | ',' :: r4 => parseFields fuel r4 ((key, v) :: acc)
            | '}' :: r4 => some (((key, v) :: acc).reverse, r4)
            | _ => none
        | _ => none
    | _ => none

end

/-- Model of Python `json.loads`: parse the whole string as one JSON value and
fail unless only whitespace remains.  Returns `none` where Python raises
`json.JSONDecodeError`. -/
def Json.loads (s : String) : Option Json :=
  let cs := s.toList
  match parseVal (cs.length + 2) cs with
  | some (j, rest) => if (skipWs rest).isEmpty then some j else none
  | none => none

example : Json.loads "\x7b\"a\": 1\x7d" = some (.obj [("a", .num 1)]) := rfl
example : Json.loads " [1, -2, true, null, \"x\"] " =
    some (.arr [.num 1, .num (-2), .bool true, .null, .str "x"]) := rfl
example : Json.loads "not json" = none := rfl
example : Json.loads "\x7b\"a\": \x7b\"b\": []\x7d\x7d" =
    some (.obj [("a", .obj [("b", .arr [])])]) := rfl
example : Json.loads "\x7b\"a\": 1" = none := rfl

/-- Index of the first occurrence of `c` in a character list. -/
def firstIdx (c : Char) : List Char → Option Nat
  | [] => none
  | x :: xs => if x = c then some 0 else (firstIdx c xs).map (· + 1)

/-- Index of the last occurrence of `c` in a character list. -/
def lastIdx (c : Char) (cs : List Char) : Option Nat :=
  match firstIdx c cs.reverse with
  | some k => some (cs.length - 1 - k)
  | none => none

/-- Python slice `s[i : j+1]` over the character list (empty when `j < i`). -/
def strSlice (s : String) (i j : Nat) : String :=
  String.mk ((s.toList.drop i).take (j + 1 - i))

/-- Model of the `re.search` call used in `SubmissionRepository.compile_code`
and `get_code_recommendations` (a greedy group from an opening brace to a
closing brace, dot-all).  The leftmost-longest match of that pattern is exactly
the span from the first opening brace to the last closing brace of the string,
and a match exists precisely when some closing brace occurs after the first
opening brace. -/
def extractBraces (s : String) : Option String :=
  match firstIdx '{' s.toList, lastIdx '}' s.toList with
  | some i, some j => if i < j then some (strSlice s i j) else none
  | _, _ => none

/-- The two-stage response parsing used by `compile_code` (repository.py lines
283-295) and `get_code_recommendations` (lines 434-447): strict `json.loads`
of the whole response, then `json.loads` of the brace-extracted substring,
then the caller-supplied default object. -/
def parseWithFallback (response : String) (dflt : Json) : Json :=
  match Json.loads response with
  | some j => j
  | none =>
    match extractBraces response with
    | some t => (Json.loads t).getD dflt
    | none => dflt

/-- Claim-side parse procedure, following the specification text word for
word: strict parse of the entire response; on failure extract the substring
from the first opening brace to the last closing brace and parse that; if
that also fails (or no such substring exists), use the caller-supplied
default. -/
def specTwoStageParse (response : String) (dflt : Json) : Json :=
  match Json.loads response with
  | some j => j
  | none =>
    match firstIdx '{' response.toList, lastIdx '}' response.toList with
    | some i, some j => (Json.loads (strSlice response i j)).getD dflt
    | _, _ => dflt

/-- Field lookup in a parsed JSON object; the last binding wins, as in a
Python dict built by `json.loads`. -/
def getField : List (String × Json) → String → Option Json
  | [], _ => none
  | (k, v) :: rest, key =>
    match getField rest key with
    | some v2 => some v2
    | none => if k = key then some v else none

/-- Python `d.get(key, default)`; `none` models the `AttributeError` raised
when the receiver is not a dict. -/
def pyDictGet (j : Json) (key : String) (dflt : Json) : Option Json :=
  match j with
  | .obj fs => some ((getField fs key).getD dflt)
  | _ => none

/-- Python `len` (sized containers only); `none` models a `TypeError`. -/
def pyLen : Json → Option Int
  | .arr xs => some (xs.length : Int)
  | .str s => some (s.length : Int)
  | .obj fs => some (fs.length : Int)
  | _ => none

/-- A parsed value used as an integer (bools count as ints, as in Python);
`none` models the `TypeError` raised by arithmetic or comparison on other
types. -/
def pyNum : Json → Option Int
  | .num n => some n
  | .bool b => some (if b then 1 else 0)
  | _ => none

/-- Default result object of `compile_code` when both parse stages fail
(repository.py lines 291-295). -/
def compileDefault : Json :=
  .obj [("test_results", .arr []),
        ("summary", .obj [("total_tests", .num 0), ("passed", .num 0), ("failed", .num 0)])]

/-- The parse step of `compile_code`. -/
def compileParse (response : String) : Json :=
  parseWithFallback response compileDefault

/-- Extraction of `(total_tests, passed)` from the parsed compile result
(repository.py lines 297-300), in Python evaluation order: fetch `summary`
(default empty dict), evaluate `len(result_json.get("test_results", []))`,
look up `total_tests` with that default, then `passed` with default 0.
`none` models an escaping `AttributeError`/`TypeError`. -/
def compileSummary (rj : Json) : Option (Int × Int) := do
  let summary ← pyDictGet rj "summary" (.obj [])
  let testResults ← pyDictGet rj "test_results" (.arr [])
  let trLen ← pyLen testResults
  let totalJ ← pyDictGet summary "total_tests" (.num trLen)
  let total ← pyNum totalJ
  let passedJ ← pyDictGet summary "passed" (.num 0)
  let passed ← pyNum passedJ
  pure (total, passed)

/-- Result-string derivation of `compile_code` (repository.py lines 303-315).
Python divides the two ints as floats; the pass rate is idealised as an exact
rational (faithful for the small test counts involved). -/
def compileResult (passed total : Int) : String :=
  if 0 < total then
    if (passed : Rat) / (total : Rat) = 1 then "Accepted"
    else if (4 : Rat) / 5 ≤ (passed : Rat) / (total : Rat) then "Partially Accepted"
    else "Failed"
  else "Error"

/-- A row of the `submissions` table (submission/model.py); timestamp columns
are not modelled. -/
structure Submission where
  id : Nat
  user_id : Nat
  question_id : Nat
  code : String
  language : String
  result : Option String
  test_cases_passed : Int
  total_test_cases : Int
  compliance_check : Bool
  deriving Repr, DecidableEq

/-- The in-place update `compile_code` applies to the fetched submission after
the collaborator call (repository.py lines 283-315): parse with fallback, read
the summary counts, store them and the derived result.  `none` models a
`TypeError`/`AttributeError` escaping from the summary accesses (caught by the
repository wrapper and converted to a 500). -/
def compileUpdate (sub : Submission) (response : String) : Option Submission :=
  match compileSummary (compileParse response) with
  | none => none
  | some (total, passed) =>
    some { sub with
            total_test_cases := total
            test_cases_passed := passed
            result := some (compileResult passed total) }

example : compileSummary (compileParse "\x7b\"summary\": \x7b\"total_tests\": 5, \"passed\": 4\x7d\x7d") = some (5, 4) := rfl
example : compileSummary (compileParse "garbage with no braces") = some (0, 0) := rfl
example : compileSummary (compileParse "text \x7b\"summary\": \x7b\"total_tests\": 1, \"passed\": 5\x7d\x7d tail") = some (1, 5) := rfl
example : compileResult 4 5 = "Partially Accepted" := by norm_num [compileResult]
example : compileResult 5 5 = "Accepted" := by norm_num [compileResult]
example : compileResult 0 0 = "Error" := by norm_num [compileResult]
example : compileResult 3 5 = "Failed" := by norm_num [compileResult]

/-- Python exceptions relevant to the embedded paths.  `http` models a FastAPI
`HTTPException`; `typeError` and `valueError` model the builtin exceptions. -/
inductive PyError where
  | http (statusCode : Nat) (detail : String)
  | typeError (msg : String)
  | valueError (msg : String)
  deriving Repr, DecidableEq

/-- The `str(e)` seen by the `except` blocks; for an `HTTPException`, Starlette
formats it as `"status_code: detail"`. -/
def PyError.message : PyError → String
  | .http s d => toString s ++ ": " ++ d
  | .typeError m => m
  | .valueError m => m

/-- Status code of a failed call, `none` on success. -/
def exceptStatus {α : Type} : Except PyError α → Option Nat
  | .error (.http s _) => some s
  | _ => none

/-- One test result of a review payload (review/schema.py `TestResult`); the
optional float `execution_time` carries no logic and is not modelled. -/
structure TestResultM where
  test_name : String
  passed : Bool
  message : Option String
  deriving Repr, DecidableEq

/-- A row of the `ai_reviews` table (review/model.py).  The serialized
`test_results` blob is kept structurally; `review_text` is `Option` because
the declarative constructor admits omitting it (its NOT NULL constraint then
fails at commit time). -/
structure AIReviewRow where
  id : Nat
  submission_id : Nat
  review_text : Option String
  code_quality_score : Option Int
  compliance_status : Option Bool
  test_results : Option (List TestResultM)
  suggestions : Option String
  security_issues : Option String
  performance_notes : Option String
  deriving Repr, DecidableEq

/-- A row of the `questions` table with its owned test cases (question/model.py);
only the fields the embedded paths read are kept. -/
structure Question where
  id : Nat
  title : String
  description : String
  difficulty_level : String
  test_cases : List (String × String)
  deriving Repr, DecidableEq

/-- The relational state touched by the submission pipeline.  Reviews are kept
in insertion order (newest last); `created_at desc` ordering is its reverse.
Database-level foreign-key enforcement is not modelled (the application-level
checks are). -/
structure AppState where
  questions : List Question
  submissions : List Submission
  reviews : List AIReviewRow
  nextSubmissionId : Nat
  nextReviewId : Nat
  deriving Repr, DecidableEq

/-- `select(Submission).where(Submission.id == sid) ... .first()`. -/
def findSubmission (st : AppState) (sid : Nat) : Option Submission :=
  st.submissions.find? (fun s => s.id == sid)

/-- `QuestionRepository.get_question_by_id`. -/
def findQuestion (st : AppState) (qid : Nat) : Option Question :=
  st.questions.find? (fun q => q.id == qid)

/-- Mutating the one fetched ORM object: replace the first submission row with
the given id. -/
def replaceFirstSubmission : List Submission → Nat → Submission → List Submission
  | [], _, _ => []
  | s :: ss, sid, s2 => if s.id = sid then s2 :: ss else s :: replaceFirstSubmission ss sid s2

/-- Attribute names defined on the `AIReview` declarative class
(review/model.py): the mapped columns plus the `submission` relationship. -/
def aiReviewAttrs : List String :=
  ["id", "submission_id", "review_text", "code_quality_score", "compliance_status",
   "test_results", "suggestions", "security_issues", "performance_notes",
   "created_at", "submission"]

/-- SQLAlchemy declarative `__init__`: a keyword argument that is not an
attribute of the class raises `TypeError`.  `mk` builds the row from the
accepted keywords. -/
def mkAIReviewFromKwargs (kwargs : List String) (mk : Unit → AIReviewRow) :
    Except PyError AIReviewRow :=
  if kwargs.all (fun k => aiReviewAttrs.contains k) then .ok (mk ())
  else .error (.typeError "invalid keyword argument for AIReview")

/-- Keyword arguments passed to `AIReview(...)` by `compile_code`
(repository.py lines 319-325): `review_type`, `content` and `score` are not
attributes of the model. -/
def compileReviewKwargs : List String :=
  ["submission_id", "review_type", "content", "test_results", "score"]

/-- Keyword arguments passed to `AIReview(...)` by `get_code_recommendations`
(repository.py lines 451-456). -/
def recommendReviewKwargs : List String :=
  ["submission_id", "review_type", "content", "test_results", "score"]

/-- `SubmissionCreate` (submission/schema.py); `language` is kept non-optional
for simplicity, the claims never omit it. -/
structure SubmissionCreateM where
  user_id : Nat
  question_id : Nat
  code : String
  language : String
  deriving Repr, DecidableEq

/-- `SubmissionRepository.create_submission`: insert a fresh row with null
result, zero counts and compliance false.  Database-side errors are not
modelled, so the insert always succeeds. -/
def create_submission (st : AppState) (data : SubmissionCreateM) : Submission × AppState :=
  let sub : Submission :=
    { id := st.nextSubmissionId
      user_id := data.user_id
      question_id := data.question_id
      code := data.code
      language := data.language
      result := none
      test_cases_passed := 0
      total_test_cases := 0
      compliance_check := false }
  (sub, { st with
            submissions := st.submissions ++ [sub]
            nextSubmissionId := st.nextSubmissionId + 1 })

/-- `SubmissionRepository.compile_code` on an already-generated collaborator
response: fetch the submission (404 if absent), parse and derive the update,
then construct the `AIReview` test-results row.  That construction passes the
unknown keywords `review_type`/`content`/`score`, so it raises `TypeError`;
the repository catches it, rolls the transaction back (nothing is persisted)
and raises a 500. -/
def repoCompileCode (st : AppState) (sid : Nat) (response : String) :
    Except PyError (Submission × AppState) :=
  match findSubmission st sid with
  | none => .error (.http 404 ("Submission with ID " ++ toString sid ++ " not found"))
  | some sub =>
    match compileUpdate sub response with
    | none => .error (.http 500 "Failed to compile code: type error in summary handling")
    | some sub2 =>
      match mkAIReviewFromKwargs compileReviewKwargs
          (fun _ =>
            { id := st.nextReviewId
              submission_id := sub.id
              review_text := none
              code_quality_score := none
              compliance_status := none
              test_results := none
              suggestions := none
              security_issues := none
              performance_notes := none }) with
      | .error e => .error (.http 500 ("Failed to compile code: " ++ e.message))
      | .ok row =>
        .ok (sub2,
          { st with
              submissions := replaceFirstSubmission st.submissions sid sub2
              reviews := st.reviews ++ [row]
              nextReviewId := st.nextReviewId + 1 })

/-- Default recommendations object of `get_code_recommendations` when parsing
fails (repository.py lines 440-447). -/
def recommendDefault : Json :=
  .obj [("error", .str "Failed to parse recommendations")]

/-- `SubmissionRepository.get_code_recommendations` on an already-generated
collaborator response: fetch the submission, parse with fallback, then
construct the recommendation `AIReview` row — which again passes unknown
keywords and raises `TypeError`, caught and re-raised as a 500 after
rollback. -/
def repoGetRecommendations (st : AppState) (sid : Nat) (response : String) :
    Except PyError (Json × AppState) :=
  match findSubmission st sid with
  | none => .error (.http 404 ("Submission with ID " ++ toString sid ++ " not found"))
  | some sub =>
    let recommendations := parseWithFallback response recommendDefault
    match mkAIReviewFromKwargs recommendReviewKwargs
        (fun _ =>
          { id := st.nextReviewId
            submission_id := sub.id
            review_text := none
            code_quality_score := none
            compliance_status := none
            test_results := none
            suggestions := none
            security_issues := none
            performance_notes := none }) with
    | .error e => .error (.http 500 ("Failed to generate code recommendations: " ++ e.message))
    | .ok row =>
      .ok (recommendations,
        { st with reviews := st.reviews ++ [row], nextReviewId := st.nextReviewId + 1 })

/-- Re-raise behaviour of the domain-layer `except Exception` blocks
(submission/domain.py): any exception, `HTTPException` included, becomes a 500
whose detail wraps `str(e)`. -/
def wrap500 {α : Type} (msgHead : String) : Except PyError α → Except PyError α
  | .ok a => .ok a
  | .error e => .error (.http 500 (msgHead ++ e.message))

/-- `SubmissionDomain.compile_submission` (domain.py lines 108-133): fetch the
submission (404 if absent), fetch its question via `QuestionDomain.get_question`
(which raises `ValueError`, not a 404, when the question is missing), then run
the repository compile; every failure is re-wrapped as a 500. -/
def domain_compile_submission (st : AppState) (sid : Nat) (response : String) :
    Except PyError (Submission × AppState) :=
  wrap500 "Failed to compile submission: "
    (match findSubmission st sid with
     | none => .error (.http 404 ("Submission with ID " ++ toString sid ++ " not found"))
     | some sub =>
       match findQuestion st sub.question_id with
       | none => .error (.valueError ("Question with id " ++ toString sub.question_id ++ " not found"))
       | some _q => repoCompileCode st sid response)

/-- `SubmissionDomain.get_code_recommendations` (domain.py lines 135-170),
with the same blanket 500 re-wrap. -/
def domain_get_recommendations (st : AppState) (sid : Nat) (response : String) :
    Except PyError (Json × AppState) :=
  wrap500 "Failed to get code recommendations: "
    (match findSubmission st sid with
     | none => .error (.http 404 ("Submission with ID " ++ toString sid ++ " not found"))
     | some sub =>
       match findQuestion st sub.question_id with
       | none => .error (.valueError ("Question with id " ++ toString sub.question_id ++ " not found"))
       | some _q => repoGetRecommendations st sid response)

/-- Reviews of a submission ordered `created_at desc` (newest first):
the reverse of insertion order. -/
def reviewsForSubmission (st : AppState) (sid : Nat) : List AIReviewRow :=
  (st.reviews.filter (fun r => r.submission_id == sid)).reverse

/-- `SubmissionRepository.get_submission_with_reviews`. -/
def repoGetSubmissionWithReviews (st : AppState) (sid : Nat) :
    Except PyError (Submission × List AIReviewRow) :=
  match findSubmission st sid with
  | none => .error (.http 404 ("Submission with ID " ++ toString sid ++ " not found"))
  | some sub => .ok (sub, reviewsForSubmission st sid)

/-- Response of POST /submissions/submit-and-review (schema
`SubmitAndReviewResponse`). -/
structure SubmitAndReviewResult where
  submission_id : Nat
  review : Option AIReviewRow
  deriving Repr, DecidableEq

/-- `SubmissionDomain.submit_and_review` (domain.py lines 172-207): create,
compile, recommend, then fetch the submission with reviews and return the
newest review.  The two collaborator responses are passed in explicitly.  The
returned state is what remains committed: each repository call commits or
rolls back its own transaction, so an error in a later step keeps the effects
of the earlier ones. -/
def submit_and_review (st : AppState) (data : SubmissionCreateM)
    (compileResponse recommendResponse : String) :
    (Except PyError SubmitAndReviewResult) × AppState :=
  let (sub, st1) := create_submission st data
  match domain_compile_submission st1 sub.id compileResponse with
  | .error e => (.error (.http 500 ("Failed to submit and review code: " ++ e.message)), st1)
  | .ok (_sub2, st2) =>
    match domain_get_recommendations st2 sub.id recommendResponse with
    | .error e => (.error (.http 500 ("Failed to submit and review code: " ++ e.message)), st2)
    | .ok (_recs, st3) =>
      match repoGetSubmissionWithReviews st3 sub.id with
      | .error e => (.error (.http 500 ("Failed to submit and review code: " ++ e.message)), st3)
      | .ok (_sub3, reviews) =>
        (.ok { submission_id := sub.id, review := reviews.head? }, st3)

/-- `AIReviewCreate` (review/schema.py). -/
structure AIReviewCreateM where
  submission_id : Nat
  review_text : String
  code_quality_score : Option Int
  compliance_status : Option Bool
  test_results : Option (List TestResultM)
  suggestions : Option String
  security_issues : Option String
  performance_notes : Option String
  deriving Repr, DecidableEq

/-- `sum(1 for test in review_data.test_results if test.passed)`. -/
def countPassed (ts : List TestResultM) : Int :=
  ((ts.filter (fun t => t.passed)).length : Int)

/-- `ReviewRepository.create_review` (review/repository.py lines 22-79):
404 when the submission is missing; otherwise insert the review row and then
overwrite the owning submission's `test_cases_passed`/`total_test_cases`
(when the optional `test_results` list is truthy, i.e. present and non-empty)
and its `compliance_check` (always, `compliance_status or False`). -/
def create_review (st : AppState) (rd : AIReviewCreateM) :
    (Except PyError AIReviewRow) × AppState :=
  match findSubmission st rd.submission_id with
  | none =>
    (.error (.http 404 ("Submission with ID " ++ toString rd.submission_id ++ " not found")), st)
  | some sub =>
    let storedResults : Option (List TestResultM) :=
      match rd.test_results with
      | some ts => if ts.isEmpty then none else some ts
      | none => none
    let row : AIReviewRow :=
      { id := st.nextReviewId
        submission_id := rd.submission_id
        review_text := some rd.review_text
        code_quality_score := rd.code_quality_score
        compliance_status := rd.compliance_status
        test_results := storedResults
        suggestions := rd.suggestions
        security_issues := rd.security_issues
        performance_notes := rd.performance_notes }
    let sub2 : Submission :=
      match rd.test_results with
      | some ts =>
        if ts.isEmpty then { sub with compliance_check := rd.compliance_status.getD false }
        else
          { sub with
              test_cases_passed := countPassed ts
              total_test_cases := (ts.length : Int)
              compliance_check := rd.compliance_status.getD false }
      | none => { sub with compliance_check := rd.compliance_status.getD false }
    (.ok row,
     { st with
         reviews := st.reviews ++ [row]
         submissions := replaceFirstSubmission st.submissions rd.submission_id sub2
         nextReviewId := st.nextReviewId + 1 })

/-- A row of the `discussion_threads` table (discuss/model.py); timestamps are
not modelled. -/
structure DiscussionThreadRow where
  id : Nat
  question_id : Nat
  user_id : Nat
  title : String
  deriving Repr, DecidableEq

/-- A row of the `discussion_messages` table. -/
structure DiscussionMessageRow where
  id : Nat
  thread_id : Nat
  user_id : Nat
  content : String
  deriving Repr, DecidableEq

/-- State touched by the discussion repository. -/
structure DiscussState where
  threads : List DiscussionThreadRow
  messages : List DiscussionMessageRow
  nextMessageId : Nat
  deriving Repr, DecidableEq

/-- `DiscussionMessageCreate` (discuss/schema.py). -/
structure DiscussionMessageCreateM where
  thread_id : Nat
  user_id : Nat
  content : String
  deriving Repr, DecidableEq

/-- `DiscussionRepository.create_discussion_message` (discuss/repository.py
lines 31-66): verify the thread exists (404 and rollback otherwise — the
session contains no pending insert at that point, so the state is unchanged),
then insert the message (the parent updated_at refresh is not modelled). -/
def create_discussion_message (st : DiscussState) (data : DiscussionMessageCreateM) :
    (Except PyError DiscussionMessageRow) × DiscussState :=
  match st.threads.find? (fun t => t.id == data.thread_id) with
  | none => (.error (.http 404 "Discussion thread not found"), st)
  | some _thread =>
    let msg : DiscussionMessageRow :=
      { id := st.nextMessageId
        thread_id := data.thread_id
        user_id := data.user_id
        content := data.content }
    (.ok msg, { st with messages := st.messages ++ [msg], nextMessageId := st.nextMessageId + 1 })

/-- A news article (news/schema.py `NewsArticle`); timestamps are epoch
seconds, the image URL field carries no logic and is not modelled. -/
structure NewsArticleM where
  title : String
  content : String
  url : String
  source : String
  published_at : Nat
  author : Option String
  deriving Repr, DecidableEq

/-- `NewsResponse` (news/schema.py). -/
structure NewsResponseM where
  articles : List NewsArticleM
  total_count : Nat
  last_updated : Nat
  deriving Repr, DecidableEq

/-- The single in-process cache slot of `NewsRepository` (`_cached_news`,
`_last_fetch`). -/
structure NewsState where
  cached_news : Option NewsResponseM
  last_fetch : Option Nat
  deriving Repr, DecidableEq

/-- One successfully parsed RSS feed entry, tagged with its source (entries
whose date parsing raises are skipped by the code and are simply absent
here). -/
structure FeedEntryM where
  source : String
  title : String
  description : Option String
  link : String
  published_at : Nat
  author : Option String
  deriving Repr, DecidableEq

/-- `cache_duration = timedelta(hours=1)`, in seconds. -/
def cacheDurationSecs : Nat := 3600

/-- The keyword filter list of `get_ai_news`. -/
def aiKeywords : List String :=
  ["ai", "artificial intelligence", "machine learning", "deep learning", "neural network"]

/-- Does the second list start with the first? -/
def startsWithChars : List Char → List Char → Bool
  | [], _ => true
  | _ :: _, [] => false
  | n :: ns, h :: hs => n == h && startsWithChars ns hs

/-- Does `needle` occur contiguously inside the list? -/
def infixChars (needle : List Char) : List Char → Bool
  | [] => needle.isEmpty
  | h :: hs => startsWithChars needle (h :: hs) || infixChars needle hs

/-- Python `needle in hay` on strings. -/
def containsSub (hay needle : String) : Bool :=
  infixChars needle.toList hay.toList

/-- The keyword check of `get_ai_news`: any keyword occurs in the lowered
title or the lowered description (missing description defaults to ""). -/
def isAIRelated (e : FeedEntryM) : Bool :=
  aiKeywords.any (fun k =>
    containsSub e.title.toLower k || containsSub (e.description.getD "").toLower k)

/-- Article built from a feed entry: `content` falls back to the title only
when the description key is absent. -/
def mkNewsArticle (e : FeedEntryM) : NewsArticleM :=
  { title := e.title
    content := e.description.getD e.title
    url := e.link
    source := e.source
    published_at := e.published_at
    author := e.author }

/-- The per-entry filtering of `get_ai_news`: drop entries older than
`now - days` and entries failing the keyword check. -/
def processEntries (entries : List FeedEntryM) (now days : Nat) : List NewsArticleM :=
  (entries.filter (fun e =>
    decide (now - days * 86400 ≤ e.published_at) && isAIRelated e)).map mkNewsArticle

/-- Insertion into a list kept sorted by `published_at` descending. -/
def insertByDateDesc (a : NewsArticleM) : List NewsArticleM → List NewsArticleM
  | [] => [a]
  | b :: bs => if a.published_at ≤ b.published_at then b :: insertByDateDesc a bs
               else a :: b :: bs

/-- `articles.sort(key=..., reverse=True)`; Python uses a stable sort, but no
analysed claim depends on stability. -/
def sortByDateDesc (l : List NewsArticleM) : List NewsArticleM :=
  l.foldl (fun acc a => insertByDateDesc a acc) []

/-- The fresh-fetch path of `get_ai_news` on the already-downloaded feed
entries (network transport abstracted away): filter, sort descending,
truncate to `limit`, build the response. -/
def fetchFresh (entries : List FeedEntryM) (now days limit : Nat) : NewsResponseM :=
  let articles := (sortByDateDesc (processEntries entries now days)).take limit
  { articles := articles, total_count := articles.length, last_updated := now }

/-- `NewsRepository.get_ai_news` (news/repository.py lines 22-102): return the
single cached slot when `force_refresh` is unset and the last fetch is within
the cache window — ignoring `days` and `limit` entirely — otherwise fetch
fresh and overwrite the slot. -/
def get_ai_news (st : NewsState) (entries : List FeedEntryM) (now days limit : Nat)
    (force_refresh : Bool) : NewsResponseM × NewsState :=
  match st.cached_news, st.last_fetch with
  | some cached, some t =>
    if force_refresh = false ∧ now - t < cacheDurationSecs then (cached, st)
    else
      let r := fetchFresh entries now days limit
      (r, { cached_news := some r, last_fetch := some now })
  | _, _ =>
    let r := fetchFresh entries now days limit
    (r, { cached_news := some r, last_fetch := some now })

/-- A row of the `chat_sessions` table (chat/model.py); timestamps are not
modelled. -/
structure ChatSessionRow where
  id : Nat
  user_id : Nat
  session_title : String
  deriving Repr, DecidableEq

/-- A row of the `ai_chat_messages` table. -/
structure ChatMessageRow where
  id : Nat
  session_id : Nat
  user_id : Nat
  role : String
  message : String
  deriving Repr, DecidableEq

/-- State touched by the chat repository. -/
structure ChatState where
  sessions : List ChatSessionRow
  messages : List ChatMessageRow
  nextChatMessageId : Nat
  deriving Repr, DecidableEq

/-- `AIChatMessageCreate` (chat/schema.py). -/
structure ChatMessageCreateM where
  session_id : Nat
  user_id : Nat
  role : String
  message : String
  deriving Repr, DecidableEq

/-- Chat history of a session in `created_at` order (insertion order). -/
def chatHistory (st : ChatState) (sid : Nat) : List ChatMessageRow :=
  st.messages.filter (fun m => m.session_id == sid)

/-- `ChatRepository.chat_with_ai` (chat/repository.py lines 97-157).
`aiOutcome` is the collaborator call (`none` when `llm.invoke` raises) and
`aiStoreOk` models the commit storing the AI message.  The user message is
committed before the collaborator call, so the `except` rollback cannot undo
it: on a later failure the state keeps the user message and the client gets a
500. -/
def chat_with_ai (st : ChatState) (input : ChatMessageCreateM)
    (aiOutcome : Option String) (aiStoreOk : Bool) :
    (Except PyError ChatMessageRow) × ChatState :=
  match st.sessions.find? (fun s => s.id == input.session_id) with
  | none =>
    (.error (.http 500 ("Chat failed: " ++
      PyError.message (.http 500 ("Failed to update session: " ++
        PyError.message (.http 404 "Session not found"))))), st)
  | some _sess =>
    let userMsg : ChatMessageRow :=
      { id := st.nextChatMessageId
        session_id := input.session_id
        user_id := input.user_id
        role := input.role
        message := input.message }
    let st1 : ChatState :=
      { st with messages := st.messages ++ [userMsg], nextChatMessageId := st.nextChatMessageId + 1 }
    match aiOutcome with
    | none => (.error (.http 500 "Chat failed: collaborator call raised"), st1)
    | some text =>
      if aiStoreOk then
        let aiMsg : ChatMessageRow :=
          { id := st1.nextChatMessageId
            session_id := input.session_id
            user_id := input.user_id
            role := "ai"
            message := text }
        (.ok aiMsg,
         { st1 with messages := st1.messages ++ [aiMsg], nextChatMessageId := st1.nextChatMessageId + 1 })
      else (.error (.http 500 "Chat failed: database error storing AI message"), st1)

/-- FastAPI query-parameter constraints of GET /questions/ (question/router.py
lines 91-96): `skip` has `ge=0`, `limit` has `ge=1, le=1000`; a violation is
rejected by the framework with a validation error before the handler runs. -/
def questionsQueryOk (skip limit : Int) : Bool :=
  decide (0 ≤ skip) && decide (1 ≤ limit) && decide (limit ≤ 1000)

/-- `QuestionDomain.get_questions` pagination validation (question/domain.py
lines 49-65). -/
def domainGetQuestionsCheck (skip limit : Int) : Except PyError Unit :=
  if skip < 0 then .error (.valueError "Skip value cannot be negative")
  else if limit < 1 then .error (.valueError "Limit must be greater than 0")
  else if limit > 1000 then .error (.valueError "Limit cannot exceed 1000")
  else .ok ()

/-- A GET /questions/ request passes both the framework constraints and the
domain validation. -/
def listQuestionsAccepted (skip limit : Int) : Bool :=
  questionsQueryOk skip limit &&
    (match domainGetQuestionsCheck skip limit with
     | .ok _ => true
     | .error _ => false)

/-- A collaborator response from which neither parse stage can recover a JSON
value: the strict parse fails and the brace-extracted substring (when one
exists) also fails to parse. -/
def Unparseable (s : String) : Prop :=
  Json.loads s = none ∧ ∀ t, extractBraces s = some t → Json.loads t = none

/-- No stored submission already uses the id the next insert will get (always
true of the primary-key sequence of the real database). -/
def NoIdClash (st : AppState) : Prop :=
  ∀ s ∈ st.submissions, s.id ≠ st.nextSubmissionId

/-- Fixture: a stored submission for question 7. -/
def subFx : Submission :=
  { id := 1
    user_id := 1
    question_id := 7
    code := "print(1)"
    language := "python"
    result := none
    test_cases_passed := 0
    total_test_cases := 0
    compliance_check := false }

/-- Fixture: the question owning `subFx`. -/
def questionFx : Question :=
  { id := 7
    title := "Sum"
    description := "Add two numbers"
    difficulty_level := "Easy"
    test_cases := [("1 2", "3")] }

/-- Fixture: state holding `questionFx` and `subFx`. -/
def stFx : AppState :=
  { questions := [questionFx]
    submissions := [subFx]
    reviews := []
    nextSubmissionId := 2
    nextReviewId := 1 }

/-- Fixture: an empty state (no questions at all). -/
def stEmpty : AppState :=
  { questions := []
    submissions := []
    reviews := []
    nextSubmissionId := 1
    nextReviewId := 1 }

/-- Fixture: a collaborator compile response whose summary is consistent
(5 of 5 passed). -/
def respAllPass : String :=
  "\x7b\"summary\": \x7b\"total_tests\": 5, \"passed\": 5\x7d\x7d"

/-- Fixture: a collaborator compile response whose summary reports more passed
tests than total tests. -/
def respOverCount : String :=
  "\x7b\"summary\": \x7b\"total_tests\": 1, \"passed\": 5\x7d\x7d"

/-- Fixture: a collaborator response with no JSON anywhere. -/
def respBad : String := "The code could not be executed."

/-- Fixture: submission-creation payload for the existing question 7. -/
def dataQ7 : SubmissionCreateM :=
  { user_id := 1, question_id := 7, code := "print(2)", language := "python" }

/-- Fixture: submission-creation payload for a nonexistent question 42. -/
def dataQ42 : SubmissionCreateM :=
  { user_id := 1, question_id := 42, code := "print(3)", language := "python" }

/-- Fixture: a passing test result. -/
def trPass : TestResultM := { test_name := "t1", passed := true, message := none }

/-- Fixture: a failing test result. -/
def trFail : TestResultM := { test_name := "t2", passed := false, message := some "boom" }

/-- Fixture: review payload for `subFx` with two test results, one passing. -/
def rdFx : AIReviewCreateM :=
  { submission_id := 1
    review_text := "looks fine"
    code_quality_score := some 8
    compliance_status := some true
    test_results := some [trPass, trFail]
    suggestions := none
    security_issues := none
    performance_notes := none }

/-- Fixture: discussion state with a single thread (id 1). -/
def discussStFx : DiscussState :=
  { threads := [{ id := 1, question_id := 7, user_id := 1, title := "help" }]
    messages := []
    nextMessageId := 1 }

/-- Fixture: a message aimed at nonexistent thread 2. -/
def msgToMissingThread : DiscussionMessageCreateM :=
  { thread_id := 2, user_id := 1, content := "hello" }

/-- Fixture: chat state with a single session (id 1) and no messages. -/
def chatStFx : ChatState :=
  { sessions := [{ id := 1, user_id := 1, session_title := "linked lists" }]
    messages := []
    nextChatMessageId := 1 }

/-- Fixture: a user chat message for session 1. -/
def chatInputFx : ChatMessageCreateM :=
  { session_id := 1, user_id := 1, role := "user", message := "thanks" }

/-! Helper lemmas (shared across claims). -/

theorem find?_replaceFirstSubmission (l : List Submission) (sid : Nat) (s2 : Submission)
    (sub : Submission) (h : l.find? (fun s => s.id == sid) = some sub) (hid : s2.id = sid) :
    (replaceFirstSubmission l sid s2).find? (fun s => s.id == sid) = some s2 := by
  induction l with
  | nil => simp [List.find?] at h
  | cons a l ih =>
    by_cases ha : a.id = sid
    · simp only [replaceFirstSubmission, if_pos ha]
      exact List.find?_cons_of_pos _ (by simp [hid])
    · simp only [replaceFirstSubmission, if_neg ha]
      rw [List.find?_cons_of_neg _ (by simp [ha])]
      rw [List.find?_cons_of_neg _ (by simp [ha])] at h
      exact ih h

/-- C8: a GET /questions/ request is accepted exactly when `skip` is
non-negative and `limit` lies in [1, 1000]; any `limit` above 1000 or below 1,
or negative `skip`, is rejected with a validation error. -/
theorem C8_pagination_validation (skip limit : Int) :
    listQuestionsAccepted skip limit = true ↔ (0 ≤ skip ∧ 1 ≤ limit ∧ limit ≤ 1000) := by
  unfold listQuestionsAccepted questionsQueryOk domainGetQuestionsCheck
  split_ifs with h1 h2 h3 <;> simp <;> omega

/-- C6: creating a discussion message whose thread does not exist returns a
404 and leaves the discussion state (in particular the message table)
unchanged. -/
theorem C6_unknown_thread_404_no_insert (st : DiscussState) (data : DiscussionMessageCreateM)
    (h : st.threads.find? (fun t => t.id == data.thread_id) = none) :
    create_discussion_message st data =
      (.error (.http 404 "Discussion thread not found"), st) := by
  unfold create_discussion_message
  rw [h]

theorem C6_witness :
    create_discussion_message discussStFx msgToMissingThread =
      (.error (.http 404 "Discussion thread not found"), discussStFx) :=
  C6_unknown_thread_404_no_insert discussStFx msgToMissingThread rfl

/-- C10: when the session exists but the collaborator call raises or the AI
message cannot be stored, `chat_with_ai` surfaces a 500 while the
already-committed user message stays persisted, so the session history ends
with the unanswered user message. -/
theorem C10_chat_failure_keeps_user_message (st : ChatState) (input : ChatMessageCreateM)
    (aiOutcome : Option String) (aiStoreOk : Bool) (sess : ChatSessionRow)
    (hsess : st.sessions.find? (fun s => s.id == input.session_id) = some sess)
    (hfail : aiOutcome = none ∨ aiStoreOk = false) :
    exceptStatus (chat_with_ai st input aiOutcome aiStoreOk).1 = some 500 ∧
    (chat_with_ai st input aiOutcome aiStoreOk).2.messages =
      st.messages ++ [{ id := st.nextChatMessageId, session_id := input.session_id,
                        user_id := input.user_id, role := input.role,
                        message := input.message }] ∧
    (chat_with_ai st input aiOutcome aiStoreOk).2.messages.getLast? =
      some { id := st.nextChatMessageId, session_id := input.session_id,
             user_id := input.user_id, role := input.role, message := input.message } := by
  unfold chat_with_ai
  rw [hsess]
  rcases hfail with hf | hf
  · subst hf
    exact ⟨rfl, rfl, List.getLast?_concat _⟩
  · subst hf
    cases aiOutcome with
    | none => exact ⟨rfl, rfl, List.getLast?_concat _⟩
    | some text =>
      exact ⟨rfl, rfl, List.getLast?_concat _⟩

theorem C10_witness :
    exceptStatus (chat_with_ai chatStFx chatInputFx none true).1 = some 500 := by
  have h := C10_chat_failure_keeps_user_message chatStFx chatInputFx none true
    { id := 1, user_id := 1, session_title := "linked lists" } rfl (Or.inl rfl)
  exact h.1

theorem create_review_find_updated (st : AppState) (rd : AIReviewCreateM)
    (ts : List TestResultM) (sub : Submission)
    (hts : rd.test_results = some ts) (hne : ts ≠ [])
    (hsub : findSubmission st rd.submission_id = some sub) :
    (create_review st rd).1.isOk = true ∧
    findSubmission (create_review st rd).2 rd.submission_id =
      some { sub with
              test_cases_passed := countPassed ts
              total_test_cases := (ts.length : Int)
              compliance_check := rd.compliance_status.getD false } := by
  have hemp : ts.isEmpty = false := by
    cases ts with
    | nil => exact absurd rfl hne
    | cons a l => rfl
  have hid : sub.id = rd.submission_id := by
    have h2 := List.find?_some hsub
    simpa using h2
  unfold findSubmission at hsub
  unfold create_review findSubmission
  rw [hsub, hts]
  simp only [hemp, Bool.false_eq_true, if_false]
  exact ⟨rfl, find?_replaceFirstSubmission _ _ _ sub hsub hid⟩

/-- C9: `create_review` with a non-empty test-result list is not
frame-preserving on the submission row: it overwrites `test_cases_passed`
with the number of passing entries, `total_test_cases` with the list length,
and `compliance_check` with the review's `compliance_status or False`. -/
theorem C9_create_review_frame_effect (st : AppState) (rd : AIReviewCreateM)
    (ts : List TestResultM) (sub : Submission)
    (hts : rd.test_results = some ts) (hne : ts ≠ [])
    (hsub : findSubmission st rd.submission_id = some sub) :
    (create_review st rd).1.isOk = true ∧
    findSubmission (create_review st rd).2 rd.submission_id =
      some { sub with
              test_cases_passed := countPassed ts
              total_test_cases := (ts.length : Int)
              compliance_check := rd.compliance_status.getD false } :=
  create_review_find_updated st rd ts sub hts hne hsub

theorem C9_witness :
    findSubmission (create_review stFx rdFx).2 rdFx.submission_id =
      some { subFx with
              test_cases_passed := countPassed [trPass, trFail]
              total_test_cases := (([trPass, trFail] : List TestResultM).length : Int)
              compliance_check := rdFx.compliance_status.getD false } :=
  (C9_create_review_frame_effect stFx rdFx [trPass, trFail] subFx rfl (by simp) rfl).2

/-- C2 counterexample: on a response whose summary reports 5 passed of 1
total, the compile-step update stores `test_cases_passed = 5` and
`total_test_cases = 1`, violating the claimed invariant in exactly the case
the claim singles out (a summary reporting more passed than total). -/
theorem C2_counterexample :
    (compileUpdate subFx respOverCount).map Submission.test_cases_passed = some 5 ∧
    (compileUpdate subFx respOverCount).map Submission.total_test_cases = some 1 ∧
    ¬ ((5 : Int) ≤ 1) :=
  ⟨rfl, rfl, by decide⟩

/-- C2 (amended): after `create_review` stores a non-empty test-result list
the invariant holds (the stored passed count is the number of passing
entries, bounded by the list length); the compile-step update merely copies
the parsed summary counts, so it satisfies the invariant exactly when the
summary itself reports `passed ≤ total` — the code never clamps. -/
theorem C2_amended_invariant :
    (∀ (st : AppState) (rd : AIReviewCreateM) (ts : List TestResultM) (sub : Submission),
        rd.test_results = some ts → ts ≠ [] →
        findSubmission st rd.submission_id = some sub →
        findSubmission (create_review st rd).2 rd.submission_id =
          some { sub with
                  test_cases_passed := countPassed ts
                  total_test_cases := (ts.length : Int)
                  compliance_check := rd.compliance_status.getD false } ∧
        countPassed ts ≤ (ts.length : Int)) ∧
    (∀ (sub : Submission) (response : String) (total passed : Int) (sub2 : Submission),
        compileSummary (compileParse response) = some (total, passed) →
        compileUpdate sub response = some sub2 →
        passed ≤ total →
        sub2.test_cases_passed ≤ sub2.total_test_cases) := by
  constructor
  · intro st rd ts sub hts hne hsub
    refine ⟨(create_review_find_updated st rd ts sub hts hne hsub).2, ?_⟩
    unfold countPassed
    exact_mod_cast List.length_filter_le _ ts
  · intro sub response total passed sub2 hsum hupd hle
    unfold compileUpdate at hupd
    rw [hsum] at hupd
    cases hupd
    exact hle

theorem C2_witness :
    findSubmission (create_review stFx rdFx).2 rdFx.submission_id =
      some { subFx with
              test_cases_passed := countPassed [trPass, trFail]
              total_test_cases := (([trPass, trFail] : List TestResultM).length : Int)
              compliance_check := rdFx.compliance_status.getD false } ∧
    countPassed [trPass, trFail] ≤ (([trPass, trFail] : List TestResultM).length : Int) :=
  C2_amended_invariant.1 stFx rdFx [trPass, trFail] subFx rfl (by simp) rfl

theorem get_ai_news_caches (st : NewsState) (entries : List FeedEntryM)
    (now days limit : Nat) (force : Bool) (r : NewsResponseM) (st2 : NewsState)
    (h : get_ai_news st entries now days limit force = (r, st2)) :
    st2.cached_news = some r := by
  rcases st with ⟨cached, lastf⟩
  cases cached with
  | none =>
    unfold get_ai_news at h
    cases h
    rfl
  | some c =>
    cases lastf with
    | none =>
      unfold get_ai_news at h
      cases h
      rfl
    | some t =>
      unfold get_ai_news at h
      dsimp only at h
      by_cases hcond : force = false ∧ now - t < cacheDurationSecs
      · rw [if_pos hcond] at h
        cases h
        rfl
      · rw [if_neg hcond] at h
        cases h
        rfl

/-- C7: after any news call, a second call within the one-hour window without
`force_refresh` returns exactly the first call's response — its `days` and
`limit` arguments are ignored — and leaves the cache slot untouched; once the
window has expired, or when `force_refresh` is set, the call performs a fresh
fetch and overwrites the single cache slot. -/
theorem C7_news_cache_single_slot (st : NewsState) (e1 e2 : List FeedEntryM)
    (n1 n2 d1 d2 l1 l2 : Nat) (f1 force2 : Bool) (r1 : NewsResponseM)
    (st1 : NewsState) (t : Nat)
    (hcall : get_ai_news st e1 n1 d1 l1 f1 = (r1, st1))
    (ht : st1.last_fetch = some t) :
    (n2 - t < cacheDurationSecs →
       get_ai_news st1 e2 n2 d2 l2 false = (r1, st1)) ∧
    ((cacheDurationSecs ≤ n2 - t ∨ force2 = true) →
       get_ai_news st1 e2 n2 d2 l2 force2 =
         (fetchFresh e2 n2 d2 l2,
          { cached_news := some (fetchFresh e2 n2 d2 l2), last_fetch := some n2 })) := by
  have hcache := get_ai_news_caches st e1 n1 d1 l1 f1 r1 st1 hcall
  rcases st1 with ⟨cached1, lastf1⟩
  have hc1 : cached1 = some r1 := hcache
  have hl1 : lastf1 = some t := ht
  subst hc1
  subst hl1
  constructor
  · intro hwin
    unfold get_ai_news
    dsimp only
    rw [if_pos ⟨rfl, hwin⟩]
  · intro hmiss
    unfold get_ai_news
    dsimp only
    rw [if_neg ?hneg]
    case hneg =>
      rcases hmiss with hexp | hforce
      · rintro ⟨_, hlt⟩
        omega
      · rintro ⟨hf, _⟩
        rw [hforce] at hf
        exact absurd hf (by decide)

theorem C7_witness :
    get_ai_news { cached_news := some (fetchFresh [] 1000 7 10), last_fetch := some 1000 }
        [] 2000 9 99 false =
      (fetchFresh [] 1000 7 10,
       { cached_news := some (fetchFresh [] 1000 7 10), last_fetch := some 1000 }) := by
  have h := C7_news_cache_single_slot { cached_news := none, last_fetch := none }
    [] [] 1000 2000 7 9 10 99 false false (fetchFresh [] 1000 7 10)
    { cached_news := some (fetchFresh [] 1000 7 10), last_fetch := some 1000 } 1000 rfl rfl
  exact h.1 (by decide)

theorem domain_compile_missing_question (st : AppState) (sid : Nat) (response : String)
    (sub : Submission) (hsub : findSubmission st sid = some sub)
    (hq : findQuestion st sub.question_id = none) :
    domain_compile_submission st sid response =
      .error (.http 500 ("Failed to compile submission: " ++
        ("Question with id " ++ toString sub.question_id ++ " not found"))) := by
  unfold domain_compile_submission
  rw [hsub]
  dsimp only
  rw [hq]
  rfl

theorem findSubmission_fresh (st : AppState) (sub : Submission) (sid : Nat)
    (hwf : NoIdClash st) (hid : sub.id = sid) (hid2 : sid = st.nextSubmissionId) :
    (st.submissions ++ [sub]).find? (fun s => s.id == sid) = some sub := by
  have h1 : st.submissions.find? (fun s => s.id == sid) = none := by
    rw [List.find?_eq_none]
    intro a ha
    simp only [beq_iff_eq]
    rw [hid2]
    exact hwf a ha
  rw [List.find?_append, h1, List.find?_cons_of_pos _ (by simp [hid])]
  rfl

/-- C4 counterexample: submitAndReview on a state with no questions fails
with status 500, not with the claimed 404 NotFound. -/
theorem C4_counterexample :
    exceptStatus (submit_and_review stEmpty dataQ42 "resp" "resp").1 = some 500 ∧
    (500 : Nat) ≠ 404 :=
  ⟨rfl, by decide⟩

/-- C4 (amended): a submitAndReview call whose question_id references no
existing question fails during the downstream compile step, but with a
generic 500 Internal Server Error: `QuestionDomain.get_question` raises a
`ValueError`, which the blanket `except Exception` handlers of
`compile_submission` and `submit_and_review` re-wrap as 500s, so no 404 is
ever surfaced. -/
theorem C4_amended_missing_question_500 (st : AppState) (data : SubmissionCreateM)
    (cresp rresp : String) (hwf : NoIdClash st)
    (hq : findQuestion st data.question_id = none) :
    exceptStatus (submit_and_review st data cresp rresp).1 = some 500 := by
  unfold submit_and_review
  dsimp only [create_submission]
  set newSub : Submission :=
    { id := st.nextSubmissionId, user_id := data.user_id, question_id := data.question_id,
      code := data.code, language := data.language, result := none,
      test_cases_passed := 0, total_test_cases := 0, compliance_check := false } with hnew
  set st1 : AppState :=
    { questions := st.questions, submissions := st.submissions ++ [newSub],
      reviews := st.reviews, nextSubmissionId := st.nextSubmissionId + 1,
      nextReviewId := st.nextReviewId } with hst1
  have hfind : findSubmission st1 newSub.id = some newSub := by
    rw [hst1, hnew]
    unfold findSubmission
    dsimp only
    exact findSubmission_fresh st _ st.nextSubmissionId hwf rfl rfl
  have hq2 : findQuestion st1 newSub.question_id = none := by
    rw [hst1, hnew]
    unfold findQuestion
    dsimp only
    exact hq
  rw [domain_compile_missing_question st1 newSub.id cresp newSub hfind hq2]
  rfl

theorem C4_witness :
    exceptStatus (submit_and_review stEmpty dataQ42 "x" "y").1 = some 500 :=
  C4_amended_missing_question_500 stEmpty dataQ42 "x" "y"
    (fun s hs => absurd hs (List.not_mem_nil s)) rfl

/-- C1: the compile step derives `result` from the pass ratio and assigns the
parsed counts exactly as claimed — but it then always fails before the commit:
the test-results `AIReview` row is constructed with keyword arguments that are
not attributes of the model (`review_type`, `content`, `score`), raising
`TypeError`, rolling the transaction back, and surfacing a 500 — so the
derived result and counts are never actually stored. -/
theorem C1_compile_derivation_never_persisted :
    (∀ (sub : Submission) (response : String) (total passed : Int),
        compileSummary (compileParse response) = some (total, passed) →
        compileUpdate sub response =
          some { sub with
                  total_test_cases := total
                  test_cases_passed := passed
                  result := some (compileResult passed total) }) ∧
    (∀ passed total : Int, 0 < total →
        (((passed : Rat) / (total : Rat) = 1) → compileResult passed total = "Accepted") ∧
        ((4 : Rat) / 5 ≤ (passed : Rat) / (total : Rat) → (passed : Rat) / (total : Rat) < 1 →
            compileResult passed total = "Partially Accepted") ∧
        (((passed : Rat) / (total : Rat) < (4 : Rat) / 5) → compileResult passed total = "Failed")) ∧
    (∀ passed : Int, compileResult passed 0 = "Error") ∧
    exceptStatus (domain_compile_submission stFx 1 respAllPass) = some 500 ∧
    (∀ v, domain_compile_submission stFx 1 respAllPass ≠ Except.ok v) := by
  refine ⟨?_, ?_, ?_, rfl, ?_⟩
  · intro sub response total passed h
    unfold compileUpdate
    rw [h]
  · intro passed total htot
    refine ⟨?_, ?_, ?_⟩
    · intro h1
      unfold compileResult
      rw [if_pos htot, if_pos h1]
    · intro h1 h2
      unfold compileResult
      rw [if_pos htot, if_neg (ne_of_lt h2), if_pos h1]
    · intro h1
      have h2 : (passed : Rat) / (total : Rat) < 1 := lt_trans h1 (by norm_num)
      unfold compileResult
      rw [if_pos htot, if_neg (ne_of_lt h2), if_neg (not_le.mpr h1)]
  · intro passed
    unfold compileResult
    rw [if_neg (lt_irrefl (0 : Int))]
  · intro v h
    exact Except.noConfusion h

theorem C1_witness :
    compileResult 4 5 = "Partially Accepted" :=
  (C1_compile_derivation_never_persisted.2.1 4 5 (by norm_num)).2.1
    (by norm_num) (by norm_num)

/-- C3: an unparseable collaborator response degrades silently in both parse
sites — the compile parse falls back to the empty result set (counts 0,
result "Error") and the recommendation parse falls back to the error object —
exactly as claimed; but submit-and-review nevertheless returns a 500, not the
claimed 200-with-default-review, because persisting the test-results
`AIReview` row raises `TypeError` (invalid keyword arguments for the model). -/
theorem C3_parse_failure_degrades_but_pipeline_fails :
    (∀ (s : String) (d : Json), Unparseable s → parseWithFallback s d = d) ∧
    (∀ (sub : Submission) (s : String), Unparseable s →
        compileUpdate sub s =
          some { sub with
                  total_test_cases := 0
                  test_cases_passed := 0
                  result := some (compileResult 0 0) } ∧
        compileResult 0 0 = "Error") ∧
    (∀ s : String, Unparseable s →
        parseWithFallback s recommendDefault =
          Json.obj [("error", Json.str "Failed to parse recommendations")]) ∧
    exceptStatus (submit_and_review stFx dataQ7 respBad respBad).1 = some 500 ∧
    (∀ v, (submit_and_review stFx dataQ7 respBad respBad).1 ≠ Except.ok v) := by
  have hgen : ∀ (s : String) (d : Json), Unparseable s → parseWithFallback s d = d := by
    intro s d hu
    obtain ⟨h1, h2⟩ := hu
    unfold parseWithFallback
    rw [h1]
    dsimp only
    cases hex : extractBraces s with
    | none => rfl
    | some t =>
      dsimp only
      rw [h2 t hex]
      rfl
  refine ⟨hgen, ?_, ?_, rfl, ?_⟩
  · intro sub s hu
    constructor
    · unfold compileUpdate compileParse
      rw [hgen s compileDefault hu]
      rfl
    · unfold compileResult
      rw [if_neg (lt_irrefl (0 : Int))]
  · intro s hu
    exact hgen s recommendDefault hu
  · intro v h
    exact Except.noConfusion h

theorem C3_witness :
    compileUpdate subFx respBad =
      some { subFx with
              total_test_cases := 0
              test_cases_passed := 0
              result := some (compileResult 0 0) } ∧
    compileResult 0 0 = "Error" :=
  C3_parse_failure_degrades_but_pipeline_fails.2.1 subFx respBad
    ⟨rfl, fun _t h => Option.noConfusion h⟩

theorem firstIdx_get {c : Char} :
    ∀ {cs : List Char} {i : Nat}, firstIdx c cs = some i → cs[i]? = some c := by
  intro cs
  induction cs with
  | nil => intro i h; exact Option.noConfusion h
  | cons x xs ih =>
    intro i h
    unfold firstIdx at h
    by_cases hx : x = c
    · rw [if_pos hx] at h
      cases h
      simp [hx]
    · rw [if_neg hx] at h
      cases hfi : firstIdx c xs with
      | none => rw [hfi] at h; exact Option.noConfusion h
      | some k =>
        rw [hfi] at h
        simp only [Option.map_some'] at h
        cases h
        rw [List.getElem?_cons_succ]
        exact ih hfi

theorem lastIdx_get {c : Char} {cs : List Char} {j : Nat}
    (h : lastIdx c cs = some j) : cs[j]? = some c := by
  unfold lastIdx at h
  cases hf : firstIdx c cs.reverse with
  | none => rw [hf] at h; exact Option.noConfusion h
  | some k =>
    rw [hf] at h
    cases h
    have hk := firstIdx_get hf
    have hklt : k < cs.length := by
      have h2 := (List.getElem?_eq_some.mp hk).1
      rwa [List.length_reverse] at h2
    rwa [List.getElem?_reverse hklt] at hk

theorem loads_empty_none : Json.loads (String.mk []) = none := rfl

/-- C5: the response-parsing procedure shared by compile and recommendations
agrees, on every response string and every default, with the specification's
two-stage contract (strict parse of the whole response; then parse of the
substring from the first opening brace to the last closing brace; then the
caller-supplied default). -/
theorem C5_two_stage_parse_contract (s : String) (d : Json) :
    parseWithFallback s d = specTwoStageParse s d := by
  unfold parseWithFallback specTwoStageParse extractBraces
  cases hl : Json.loads s with
  | some j => rfl
  | none =>
    dsimp only
    cases hf : firstIdx '{' s.toList with
    | none => rfl
    | some i =>
      cases hj : lastIdx '}' s.toList with
      | none => rfl
      | some j =>
        dsimp only
        by_cases hij : i < j
        · rw [if_pos hij]
        · rw [if_neg hij]
          dsimp only
          rcases Nat.lt_or_ge j i with hji | hge
          · have h0 : strSlice s i j = String.mk [] := by
              unfold strSlice
              rw [show j + 1 - i = 0 by omega, List.take_zero]
            rw [h0, loads_empty_none]
            rfl
          · have hji : j = i := by omega
            subst hji
            have h1 := firstIdx_get hf
            have h2 := lastIdx_get hj
            rw [h1] at h2
            exact absurd (Option.some.inj h2) (by decide)
